import Mathlib

/- Verification development for the Metal secure-messaging repository.

The TypeScript/JavaScript sources are shallowly embedded: pure functions
become Lean functions on `Nat`-byte lists and `String`s, stateful services
become explicit state-passing functions, and external randomness
(`crypto.getRandomValues`) is passed in as an oracle argument. -/

namespace Metal

/-! ## Byte utilities (src/src/crypto/utils.ts) -/

/-- Big-endian 4-byte encoding of a length, as written by
`DataView.setUint32(0, n, false)` in `padMessage` (the stored value is
`n mod 2^32`, split into four bytes, most significant first). -/
def beBytes32 (n : Nat) : List Nat :=
  [n % 4294967296 / 16777216, n % 16777216 / 65536, n % 65536 / 256, n % 256]

/-- Big-endian read of the first four bytes, as `DataView.getUint32(0, false)`
in `unpadMessage`. -/
def beValue32 (bs : List Nat) : Nat :=
  bs.getD 0 0 * 16777216 + bs.getD 1 0 * 65536 + bs.getD 2 0 * 256 + bs.getD 3 0

/-- Constant `CRYPTO_CONSTANTS.PADDED_SIZE` (src/src/crypto/constants.ts). -/
def PADDED_SIZE : Nat := 4096

/-- Source function `padMessage` (src/src/crypto/utils.ts): the output has size
`max PADDED_SIZE (data.length + 4)`; the first 4 bytes are the big-endian
message length, then the data, then random padding.  The random bytes
produced by `randomBytes` are modelled by the oracle `rand`. -/
def padMessage (data : List Nat) (rand : Nat → Nat) : List Nat :=
  beBytes32 data.length ++ data ++
    (List.range (max PADDED_SIZE (data.length + 4) - 4 - data.length)).map rand

/-- Source function `unpadMessage` (src/src/crypto/utils.ts): read the big-endian length from
the first four bytes and return `padded.slice(4, 4 + length)`. -/
def unpadMessage (padded : List Nat) : List Nat :=
  (padded.drop 4).take (beValue32 (padded.take 4))

theorem beBytes32_length (n : Nat) : (beBytes32 n).length = 4 := rfl

theorem beValue32_beBytes32 (n : Nat) : beValue32 (beBytes32 n) = n % 4294967296 := by
  simp only [beBytes32, beValue32, List.getD_cons_zero, List.getD_cons_succ]
  omega

/-- C10: for every byte sequence whose length fits in an unsigned 32-bit
integer, `unpadMessage (padMessage data rand)` returns exactly `data`,
whatever random padding `randomBytes` produced. -/
theorem unpad_pad_roundtrip (data : List Nat) (rand : Nat → Nat)
    (h : data.length < 4294967296) :
    unpadMessage (padMessage data rand) = data := by
  unfold padMessage unpadMessage
  simp only [List.append_assoc]
  rw [List.take_left' (beBytes32_length data.length),
      List.drop_left' (beBytes32_length data.length),
      beValue32_beBytes32, Nat.mod_eq_of_lt h,
      List.take_left' rfl]

/-- Witness for C10 at a concrete input. -/
theorem unpad_pad_roundtrip_witness :
    unpadMessage (padMessage [7, 200, 31] (fun i => i % 256)) = [7, 200, 31] :=
  unpad_pad_roundtrip [7, 200, 31] (fun i => i % 256) (by decide)

/-! ## Metal ID service (src/src/services/metal-id.ts) -/

/-- The Metal ID alphabet "ABCDEFGHJKLMNPQRSTUVWXYZ23456789"
(0/O, 1/I/l are excluded as visually ambiguous). -/
def ID_CHARS : String := "ABCDEFGHJKLMNPQRSTUVWXYZ23456789"

/-- Constant `ID_LENGTH` from src/src/services/metal-id.ts. -/
def ID_LENGTH : Nat := 5

/-- Source function `generateMetalId`: builds a 5-character string whose i-th character is
`ID_CHARS[array[i] % ID_CHARS.length]` for five random bytes from
`crypto.getRandomValues`, modelled by the list `rand`. -/
def generateMetalId (rand : List Nat) : String :=
  String.mk ((List.range ID_LENGTH).map
    (fun i => ID_CHARS.toList.getD (rand.getD i 0 % ID_CHARS.length) 'A'))

/-- Source function `isValidMetalId`: rejects strings whose length is not `ID_LENGTH`, then
uppercases and checks every character against `ID_CHARS`
(`id.toUpperCase()` is character-wise on this ASCII alphabet, modelled by
mapping `Char.toUpper`; `ID_CHARS.includes` is list membership). -/
def isValidMetalId (id : String) : Bool :=
  if id.length ≠ ID_LENGTH then false
  else (id.toList.map Char.toUpper).all (fun c => ID_CHARS.toList.contains c)

theorem idChars_upper_closed :
    ∀ c ∈ ID_CHARS.toList, ID_CHARS.toList.contains (Char.toUpper c) = true := by decide

theorem generateMetalId_chars (rand : List Nat) :
    ∀ c ∈ (generateMetalId rand).toList, c ∈ ID_CHARS.toList := by
  intro c hc
  have hc' : c ∈ (List.range ID_LENGTH).map
      (fun i => ID_CHARS.toList.getD (rand.getD i 0 % ID_CHARS.length) 'A') := hc
  simp only [List.mem_map] at hc'
  obtain ⟨i, _, rfl⟩ := hc'
  have hlt : rand.getD i 0 % ID_CHARS.length < ID_CHARS.toList.length :=
    Nat.mod_lt _ (by decide)
  rw [List.getD_eq_getElem _ _ hlt]
  exact List.getElem_mem hlt

/-- C9 counterexample: the alphabet has 32 characters, not 33 as claimed. -/
theorem idChars_card_32 : ID_CHARS.length = 32 ∧ ID_CHARS.length ≠ 33 := by decide

/-- C9 (amended: the alphabet has 32 characters, not 33): every generated
Metal ID is a 5-character string over `ID_CHARS` and is accepted by
`isValidMetalId`, and `isValidMetalId` accepts exactly the strings of length
5 all of whose uppercased characters lie in `ID_CHARS`. -/
theorem metalId_spec :
    ID_CHARS.length = 32 ∧
    (∀ rand : List Nat,
      (generateMetalId rand).length = ID_LENGTH ∧
      (∀ c ∈ (generateMetalId rand).toList, c ∈ ID_CHARS.toList) ∧
      isValidMetalId (generateMetalId rand) = true) ∧
    (∀ s : String, isValidMetalId s = true ↔
      (s.length = ID_LENGTH ∧
        ∀ c ∈ s.toList.map Char.toUpper, ID_CHARS.toList.contains c = true)) := by
  refine ⟨by decide, fun rand => ?_, fun s => ?_⟩
  · have hlen : (generateMetalId rand).length = ID_LENGTH := by
      unfold generateMetalId
      rw [String.length_mk, List.length_map, List.length_range]
    refine ⟨hlen, generateMetalId_chars rand, ?_⟩
    unfold isValidMetalId
    rw [if_neg (not_not_intro hlen), List.all_eq_true]
    intro c hc
    simp only [List.mem_map] at hc
    obtain ⟨a, ha, rfl⟩ := hc
    exact idChars_upper_closed a (generateMetalId_chars rand a ha)
  · unfold isValidMetalId
    by_cases hlen : s.length = ID_LENGTH
    · rw [if_neg (not_not_intro hlen), List.all_eq_true]
      simp only [hlen, true_and]
    · rw [if_pos hlen]
      simp [hlen]

/-- Witness for C9 at concrete inputs. -/
theorem metalId_spec_witness :
    isValidMetalId (generateMetalId [10, 200, 33, 7, 99]) = true ∧
    isValidMetalId "AB3K9" = true :=
  ⟨(metalId_spec.2.1 [10, 200, 33, 7, 99]).2.2,
   (metalId_spec.2.2 "AB3K9").mpr (by decide)⟩

/-! ## AEAD envelope codec (src/src/crypto/aes.ts)

`encrypt`/`decrypt` wrap the Web Crypto AES-256-GCM primitive
(`crypto.subtle.encrypt`/`decrypt`), which is external to the repository.
Modelled from the spec: AES-GCM AEAD-encrypts under a 256-bit key with a
96-bit nonce and a 128-bit authentication tag, producing
`ciphertext ∥ tag`; the GCM ciphertext is the plaintext XORed with a
keystream determined by the key and the nonce (CTR mode), and the tag is a
function of the key, the nonce and the ciphertext (GHASH).  The keystream
byte function `stream` and the tag function `mac` are abstract parameters,
so every theorem below holds for the real AES-256-GCM instantiation. -/

/-- Constant `CRYPTO_CONSTANTS.NONCE_SIZE` (12 bytes / 96 bits). -/
def NONCE_SIZE : Nat := 12

/-- Constant `CRYPTO_CONSTANTS.AUTH_TAG_SIZE` (16 bytes / 128 bits). -/
def AUTH_TAG_SIZE : Nat := 16

/-- Byte-wise XOR of two byte lists. -/
def xorBytes (a b : List Nat) : List Nat :=
  List.zipWith (fun x y => x ^^^ y) a b

/-- Modelled from the spec: the first `n` keystream bytes for `key`,
`nonce`. -/
def keystream (stream : List Nat → List Nat → Nat → Nat)
    (key nonce : List Nat) (n : Nat) : List Nat :=
  (List.range n).map (fun i => stream key nonce i % 256)

/-- Modelled from the spec: `crypto.subtle.encrypt` with AES-GCM and
`tagLength: 128` — CTR-encrypt, then append the 128-bit tag. -/
def aeadEncrypt (stream : List Nat → List Nat → Nat → Nat)
    (mac : List Nat → List Nat → List Nat → List Nat)
    (key nonce pt : List Nat) : List Nat :=
  xorBytes pt (keystream stream key nonce pt.length) ++
    mac key nonce (xorBytes pt (keystream stream key nonce pt.length))

/-- Modelled from the spec: `crypto.subtle.decrypt` with AES-GCM — split
the 128-bit tag off, verify it, and only then CTR-decrypt; a tag mismatch
is `AuthenticationFailure` (`none`), never partial plaintext. -/
def aeadDecrypt (stream : List Nat → List Nat → Nat → Nat)
    (mac : List Nat → List Nat → List Nat → List Nat)
    (key nonce data : List Nat) : Option (List Nat) :=
  if data.length < AUTH_TAG_SIZE then none
  else if data.drop (data.length - AUTH_TAG_SIZE) =
      mac key nonce (data.take (data.length - AUTH_TAG_SIZE)) then
    some (xorBytes (data.take (data.length - AUTH_TAG_SIZE))
      (keystream stream key nonce (data.take (data.length - AUTH_TAG_SIZE)).length))
  else none

/-- Source function `encrypt` (src/src/crypto/aes.ts): draw a fresh 12-byte nonce
(`randomBytes(NONCE_SIZE)`, passed in as `nonce`), AEAD-encrypt, and output
`nonce ∥ ciphertext ∥ tag` (`concatBytes(nonce, ciphertext)`). -/
def encrypt (stream : List Nat → List Nat → Nat → Nat)
    (mac : List Nat → List Nat → List Nat → List Nat)
    (plaintext key nonce : List Nat) : List Nat :=
  nonce ++ aeadEncrypt stream mac key nonce plaintext

/-- Source function `decrypt` (src/src/crypto/aes.ts): split the first `NONCE_SIZE` bytes
off as the nonce and AEAD-decrypt the remainder. -/
def decrypt (stream : List Nat → List Nat → Nat → Nat)
    (mac : List Nat → List Nat → List Nat → List Nat)
    (encryptedData key : List Nat) : Option (List Nat) :=
  aeadDecrypt stream mac key (encryptedData.take NONCE_SIZE)
    (encryptedData.drop NONCE_SIZE)

theorem xorBytes_cancel (a b : List Nat) (h : a.length ≤ b.length) :
    xorBytes (xorBytes a b) b = a := by
  induction a generalizing b with
  | nil => simp [xorBytes]
  | cons x xs ih =>
    cases b with
    | nil => simp at h
    | cons y ys =>
      simp only [xorBytes, List.zipWith_cons_cons] at *
      refine congrArg₂ List.cons ?_ (ih ys (by simpa using h))
      rw [Nat.xor_assoc, Nat.xor_self, Nat.xor_zero]

theorem keystream_length (stream : List Nat → List Nat → Nat → Nat)
    (key nonce : List Nat) (n : Nat) :
    (keystream stream key nonce n).length = n := by
  simp [keystream]

/-- C1: for every plaintext, 256-bit key and 12-byte nonce,
`decrypt (encrypt P K) K` returns `P`: `encrypt` prepends the 12-byte nonce
to the AEAD output and `decrypt` splits it back off, so the round trip is
the identity, for any keystream and tag functions (in particular for
AES-256-GCM, whose tags are 16 bytes). -/
theorem decrypt_encrypt_roundtrip
    (stream : List Nat → List Nat → Nat → Nat)
    (mac : List Nat → List Nat → List Nat → List Nat)
    (pt key nonce : List Nat)
    (hkey : key.length = 32)
    (hnonce : nonce.length = NONCE_SIZE)
    (hmac : ∀ k n c, (mac k n c).length = AUTH_TAG_SIZE) :
    decrypt stream mac (encrypt stream mac pt key nonce) key = some pt := by
  unfold encrypt decrypt
  rw [List.take_left' hnonce, List.drop_left' hnonce]
  unfold aeadEncrypt aeadDecrypt
  have hctlen : (xorBytes pt (keystream stream key nonce pt.length)).length
      = pt.length := by
    simp [xorBytes, keystream_length]
  have htag := hmac key nonce (xorBytes pt (keystream stream key nonce pt.length))
  have hlen : (xorBytes pt (keystream stream key nonce pt.length) ++
      mac key nonce (xorBytes pt (keystream stream key nonce pt.length))).length
      = pt.length + AUTH_TAG_SIZE := by
    rw [List.length_append, hctlen, htag]
  rw [if_neg (by rw [hlen]; omega)]
  have hsub : (xorBytes pt (keystream stream key nonce pt.length) ++
      mac key nonce (xorBytes pt (keystream stream key nonce pt.length))).length
      - AUTH_TAG_SIZE
      = (xorBytes pt (keystream stream key nonce pt.length)).length := by
    rw [hlen, hctlen]; omega
  rw [hsub, List.take_left, List.drop_left, if_pos rfl, hctlen]
  exact congrArg some (xorBytes_cancel pt _ (le_of_eq (keystream_length _ _ _ _).symm))

/-- Witness for C1 at concrete inputs. -/
theorem decrypt_encrypt_roundtrip_witness :
    decrypt (fun _ _ i => i + 3) (fun _ _ _ => List.replicate 16 0)
      (encrypt (fun _ _ i => i + 3) (fun _ _ _ => List.replicate 16 0)
        [72, 101, 108, 108, 111] (List.replicate 32 7) (List.replicate 12 9))
      (List.replicate 32 7) = some [72, 101, 108, 108, 111] :=
  decrypt_encrypt_roundtrip (fun _ _ i => i + 3) (fun _ _ _ => List.replicate 16 0)
    [72, 101, 108, 108, 111] (List.replicate 32 7) (List.replicate 12 9)
    (by simp) (by simp [NONCE_SIZE]) (fun k n c => by simp [AUTH_TAG_SIZE])

/-! ## X25519 key exchange (src/src/crypto/x25519.ts)

`generateKeyPair`/`computeSharedSecret` delegate to the `@noble/curves`
`x25519` implementation, external to the repository.  Modelled from the
spec: Diffie-Hellman scalar multiplication over a Montgomery curve.  The
curve group is an abstract additive commutative monoid `M`, a public key is
a point of `M`, scalar multiplication is `•`, and the RFC 7748 clamping of
the 32-byte little-endian scalar is implemented concretely. -/

/-- RFC 7748 scalar clamping: clear the low 3 bits of byte 0, clear the top
bit and set bit 6 of byte 31, then read the 32 bytes little-endian. -/
def clampScalar (k : List Nat) : Nat :=
  ((List.range 32).map (fun i =>
    if i = 0 then k.getD i 0 % 256 &&& 248
    else if i = 31 then (k.getD i 0 % 256 &&& 127) ||| 64
    else k.getD i 0 % 256)).foldr (fun b acc => b + 256 * acc) 0

/-- Modelled from the spec: `x25519.getPublicKey` — scalar multiplication
of the curve base point by the clamped private scalar. -/
def getPublicKey {M : Type} [AddCommMonoid M] (basePoint : M)
    (privateKey : List Nat) : M :=
  clampScalar privateKey • basePoint

/-- Source function `computeSharedSecret` (src/src/crypto/x25519.ts): scalar multiplication
of the peer public point by the clamped own private scalar
(`x25519.getSharedSecret(privateKey, peerPublicKey)`). -/
def computeSharedSecret {M : Type} [AddCommMonoid M]
    (privateKey : List Nat) (peerPublicKey : M) : M :=
  clampScalar privateKey • peerPublicKey

/-- C2: for valid key pairs A and B (public key = scalar multiple of the
base point by the own private key), both parties compute the same shared
secret: `computeSharedSecret A.priv B.pub = computeSharedSecret B.priv
A.pub`. -/
theorem computeSharedSecret_comm {M : Type} [AddCommMonoid M]
    (basePoint : M) (aPriv bPriv : List Nat) (aPub bPub : M)
    (hA : aPub = getPublicKey basePoint aPriv)
    (hB : bPub = getPublicKey basePoint bPriv) :
    computeSharedSecret aPriv bPub = computeSharedSecret bPriv aPub := by
  subst hA hB
  unfold computeSharedSecret getPublicKey
  rw [smul_smul, smul_smul, Nat.mul_comm]

/-- Witness for C2 at concrete inputs (the curve group instantiated by ℕ). -/
theorem computeSharedSecret_comm_witness :
    computeSharedSecret (M := ℕ) (List.replicate 32 1)
        (getPublicKey 1 (List.replicate 32 2)) =
      computeSharedSecret (List.replicate 32 2)
        (getPublicKey 1 (List.replicate 32 1)) :=
  computeSharedSecret_comm 1 (List.replicate 32 1) (List.replicate 32 2)
    (getPublicKey 1 (List.replicate 32 1)) (getPublicKey 1 (List.replicate 32 2))
    rfl rfl

/-! ## Association maps (JS `Map.get` / `Map.set`) -/

/-- Lookup in an association list, as JS `Map.get` (or `undefined`). -/
def getMap {α : Type} : List (String × α) → String → Option α
  | [], _ => none
  | (k, v) :: rest, key => if k = key then some v else getMap rest key

/-- Update in an association list, as JS `Map.set` (replace or append). -/
def setMap {α : Type} : List (String × α) → String → α → List (String × α)
  | [], key, v => [(key, v)]
  | (k, w) :: rest, key, v =>
    if k = key then (key, v) :: rest else (k, w) :: setMap rest key v

theorem getMap_setMap_same {α : Type} (m : List (String × α)) (k : String) (v : α) :
    getMap (setMap m k v) k = some v := by
  induction m with
  | nil => simp [getMap, setMap]
  | cons hd tl ih =>
    obtain ⟨k₂, w⟩ := hd
    by_cases hk : k₂ = k
    · simp [getMap, setMap, hk]
    · simp [getMap, setMap, hk, ih]

theorem getMap_setMap_other {α : Type} (m : List (String × α)) (k k₂ : String)
    (v : α) (h : k₂ ≠ k) : getMap (setMap m k v) k₂ = getMap m k₂ := by
  induction m with
  | nil => simp [getMap, setMap, Ne.symm h]
  | cons hd tl ih =>
    obtain ⟨k₃, w⟩ := hd
    by_cases hk : k₃ = k
    · subst hk
      simp [getMap, setMap, Ne.symm h]
    · simp [getMap, setMap, hk, ih]

/-! ## Wire records shared by the relay server and its client -/

/-- A relayed envelope, as built in the `message` case of the server
WebSocket handler and consumed by `MetalServerClient` (`ServerMessage`). -/
structure ServerMessage where
  id : String
  fromMetalId : String
  toMetalId : String
  encryptedContent : String
  timestamp : Nat
  type : String
deriving DecidableEq

/-- Acknowledgement status sent back to the sender. -/
inductive AckStatus
  | delivered
  | queued
deriving DecidableEq

/-- One outbound frame produced by the server while handling an event. -/
inductive WSOut
  | deliver (toMetalId : String) (msg : ServerMessage)
  | ack (messageId : String) (status : AckStatus)
  | errorMsg (text : String)
deriving DecidableEq

/-! ## Relay server (src/server/index.js) -/

/-- Relay-server shared state: `wsConnections` maps an authenticated handle
to its socket id (entries are only ever added in the `auth` case, so every
entry is an authenticated connection), `pendingMessages` maps a handle to
its queue of undelivered envelopes. -/
structure ServerState where
  wsConnections : List (String × Nat)
  pendingMessages : List (String × List ServerMessage)
deriving DecidableEq

/-- Embeds the `message` case of the server WebSocket handler
(src/server/index.js): requires the sending connection to be authenticated;
builds the server message with `id || uuidv4()` (the fresh uuid is the
oracle `freshId`); if the recipient handle maps to a socket whose
`readyState` is 1, forwards the envelope there and acks `delivered`
without touching the queues; otherwise appends the envelope to the
recipient queue and acks `queued`. -/
def handleSendMessage (readyState : Nat → Nat)
    (authenticatedMetalId : Option String) (freshId : String)
    (toMetalId encryptedContent payloadId : String) (now : Nat)
    (st : ServerState) : ServerState × List WSOut :=
  match authenticatedMetalId with
  | none => (st, [WSOut.errorMsg "Not authenticated"])
  | some sender =>
    let msgId := if payloadId = "" then freshId else payloadId
    let serverMessage : ServerMessage :=
      { id := msgId, fromMetalId := sender, toMetalId := toMetalId,
        encryptedContent := encryptedContent, timestamp := now,
        type := "message" }
    match getMap st.wsConnections toMetalId with
    | some sock =>
      if readyState sock = 1 then
        (st, [WSOut.deliver toMetalId serverMessage,
              WSOut.ack msgId AckStatus.delivered])
      else
        ({ wsConnections := st.wsConnections,
           pendingMessages := setMap st.pendingMessages toMetalId
             ((getMap st.pendingMessages toMetalId).getD [] ++ [serverMessage]) },
         [WSOut.ack msgId AckStatus.queued])
    | none =>
      ({ wsConnections := st.wsConnections,
         pendingMessages := setMap st.pendingMessages toMetalId
           ((getMap st.pendingMessages toMetalId).getD [] ++ [serverMessage]) },
       [WSOut.ack msgId AckStatus.queued])

/-- C4: on an authenticated connection, a send-message event with recipient
online (socket present with `readyState` 1) forwards the envelope to the
recipient and acks `delivered`, leaving the state untouched; with the
recipient offline it acks `queued`, appends the envelope to exactly the
recipient queue and changes nothing else. -/
theorem handleSendMessage_spec (readyState : Nat → Nat)
    (sender freshId toMetalId content payloadId : String) (now : Nat)
    (st : ServerState) (msgId : String) (m : ServerMessage)
    (hid : msgId = if payloadId = "" then freshId else payloadId)
    (hm : m = { id := msgId, fromMetalId := sender, toMetalId := toMetalId,
                encryptedContent := content, timestamp := now,
                type := "message" }) :
    ((∀ sock, getMap st.wsConnections toMetalId = some sock →
        readyState sock = 1 →
        handleSendMessage readyState (some sender) freshId toMetalId content
          payloadId now st =
          (st, [WSOut.deliver toMetalId m, WSOut.ack msgId AckStatus.delivered])) ∧
     ((∀ sock, getMap st.wsConnections toMetalId = some sock →
         readyState sock ≠ 1) →
       (handleSendMessage readyState (some sender) freshId toMetalId content
           payloadId now st).2 = [WSOut.ack msgId AckStatus.queued] ∧
       getMap (handleSendMessage readyState (some sender) freshId toMetalId
           content payloadId now st).1.pendingMessages toMetalId =
         some ((getMap st.pendingMessages toMetalId).getD [] ++ [m]) ∧
       (handleSendMessage readyState (some sender) freshId toMetalId content
           payloadId now st).1.wsConnections = st.wsConnections ∧
       ∀ h : String, h ≠ toMetalId →
         getMap (handleSendMessage readyState (some sender) freshId toMetalId
             content payloadId now st).1.pendingMessages h =
           getMap st.pendingMessages h)) := by
  subst hid hm
  constructor
  · intro sock hsock hready
    simp only [handleSendMessage, hsock, if_pos hready]
  · intro hoff
    cases hsock : getMap st.wsConnections toMetalId with
    | none =>
      simp only [handleSendMessage, hsock]
      exact ⟨trivial, getMap_setMap_same _ _ _, trivial,
             fun h hne => getMap_setMap_other _ _ _ _ hne⟩
    | some sock =>
      simp only [handleSendMessage, hsock, if_neg (hoff sock hsock)]
      exact ⟨trivial, getMap_setMap_same _ _ _, trivial,
             fun h hne => getMap_setMap_other _ _ _ _ hne⟩

/-- Witness for C4: online recipient gets the envelope and the sender a
`delivered` ack; an unknown recipient gets queued. -/
theorem handleSendMessage_spec_witness :
    (handleSendMessage (fun _ => 1) (some "AB3K9") "f1" "ZQ7M2" "ct" "m1" 5
        { wsConnections := [("ZQ7M2", 0)], pendingMessages := [] } =
      ({ wsConnections := [("ZQ7M2", 0)], pendingMessages := [] },
       [WSOut.deliver "ZQ7M2"
          { id := "m1", fromMetalId := "AB3K9", toMetalId := "ZQ7M2",
            encryptedContent := "ct", timestamp := 5, type := "message" },
        WSOut.ack "m1" AckStatus.delivered])) ∧
    ((handleSendMessage (fun _ => 1) (some "AB3K9") "f1" "ZQ7M2" "ct" "m1" 5
        { wsConnections := [], pendingMessages := [] }).2 =
      [WSOut.ack "m1" AckStatus.queued]) :=
  ⟨(handleSendMessage_spec (fun _ => 1) "AB3K9" "f1" "ZQ7M2" "ct" "m1" 5
      { wsConnections := [("ZQ7M2", 0)], pendingMessages := [] } "m1" _
      (by decide) rfl).1 0 (by decide) rfl,
   ((handleSendMessage_spec (fun _ => 1) "AB3K9" "f1" "ZQ7M2" "ct" "m1" 5
      { wsConnections := [], pendingMessages := [] } "m1" _
      (by decide) rfl).2 (by intro sock hsock; cases hsock)).1⟩

/-! ## Typing indicators in the poller (messaging service source file) -/

/-- One EncryptedEnvelope as stored in the store-and-forward object store
(messaging service source). -/
structure EncryptedEnvelope where
  id : String
  fromMetalId : String
  toMetalId : String
  encryptedContent : String
  timestamp : Nat
deriving DecidableEq

/-- Result of one `processTypingFile` call: the typing callbacks fired as
(senderMetalId, isTyping) pairs, and whether the remote file was deleted. -/
structure TypingResult where
  callbacks : List (String × Bool)
  deleted : Bool
deriving DecidableEq

/-- Embeds `MessagingService.processTypingFile`: `isRecent` is
`Date.now() - envelope.timestamp < 5000`; the registered `onTyping`
callback is always invoked with `(fromMetalId, isRecent)` — also for stale
objects — and the remote file is deleted only when stale. -/
def processTypingFile (now : Nat) (env : EncryptedEnvelope)
    (onTypingSet : Bool) : TypingResult :=
  let isRecent := decide (now - env.timestamp < 5000)
  { callbacks := if onTypingSet then [(env.fromMetalId, isRecent)] else []
    deleted := !isRecent }

/-- C7 counterexample: a stale typing object (6 seconds old) is still
surfaced to the application — the typing callback fires, with
`isTyping = false`. -/
theorem staleTyping_surfaced :
    processTypingFile 10000
      { id := "t1", fromMetalId := "AB3K9", toMetalId := "ZQ7M2",
        encryptedContent := "", timestamp := 4000 } true =
    { callbacks := [("AB3K9", false)], deleted := true } := by decide

/-- C7 (amended): a typing object is surfaced as typing (callback argument
`true`) exactly when its timestamp is within the 5-second window; a stale
object is deleted from the remote store, but it is still surfaced — the
callback fires with argument `false` — rather than not surfaced at all. -/
theorem processTypingFile_spec (now : Nat) (env : EncryptedEnvelope) :
    (processTypingFile now env true).callbacks =
      [(env.fromMetalId, decide (now - env.timestamp < 5000))] ∧
    ((processTypingFile now env true).deleted = true ↔
      ¬ (now - env.timestamp < 5000)) := by
  unfold processTypingFile
  refine ⟨rfl, ?_⟩
  by_cases h : now - env.timestamp < 5000 <;> simp [h]

/-- Witness for C7 (amended) at a concrete recent typing object. -/
theorem processTypingFile_spec_witness :
    (processTypingFile 10000
      { id := "t2", fromMetalId := "QQQQQ", toMetalId := "ZQ7M2",
        encryptedContent := "", timestamp := 9999 } true).callbacks =
      [("QQQQQ", decide (10000 - 9999 < 5000))] :=
  (processTypingFile_spec 10000
    { id := "t2", fromMetalId := "QQQQQ", toMetalId := "ZQ7M2",
      encryptedContent := "", timestamp := 9999 }).1

/-! ## Store-and-forward poller dedup vs the live channel

`MessagingService.processMessageFile` (messaging service source file) is
the poller delivery path; `MetalServerClient.handleWSMessage` (server api
client source file) is the live delivery path.  Downloading, AES
decryption and JSON parsing are external effects, modelled by the
`decryptParse` oracle applied to the sender key and the encrypted content;
everything the claim is about — the ProcessedIdSet consultation and the
callback invocations — is embedded from the source. -/

/-- Decrypted message payload (`{content, conversationId, timestamp}`). -/
structure MsgPayload where
  content : String
  conversationId : String
  timestamp : Nat
deriving DecidableEq

/-- Application-level message record surfaced by a callback. -/
structure Message where
  id : String
  conversationId : String
  senderId : String
  senderMetalId : String
  content : String
  timestamp : Nat
deriving DecidableEq

/-- MessagingService state relevant to duplicate suppression:
`processedMessageIds` (the ProcessedIdSet), the cached contact public keys,
whether the service holds the private key, and whether an `onMessage`
callback is registered. -/
structure MsgServiceState where
  processedMessageIds : List String
  contactKeys : List (String × String)
  hasPrivateKey : Bool
  onMessageSet : Bool
deriving DecidableEq

/-- Embeds `MessagingService.processMessageFile`: skip if the envelope id
is already in `processedMessageIds`; skip (with a warning) if the sender
key is unknown or the service is uninitialized; skip if decrypt/parse
fails (the error is caught); otherwise record the id in the
ProcessedIdSet and fire the registered message callback.  Returns the new
state and the list of messages surfaced to the application. -/
def processMessageFile (decryptParse : String → String → Option MsgPayload)
    (st : MsgServiceState) (env : EncryptedEnvelope) :
    MsgServiceState × List Message :=
  if env.id ∈ st.processedMessageIds then (st, [])
  else
    match getMap st.contactKeys env.fromMetalId with
    | none => (st, [])
    | some senderKey =>
      if st.hasPrivateKey = false then (st, [])
      else
        match decryptParse senderKey env.encryptedContent with
        | none => (st, [])
        | some payload =>
          ({ st with processedMessageIds := env.id :: st.processedMessageIds },
           if st.onMessageSet then
             [{ id := env.id, conversationId := payload.conversationId,
                senderId := env.fromMetalId, senderMetalId := env.fromMetalId,
                content := payload.content, timestamp := payload.timestamp }]
           else [])

/-- One WebSocket frame received by `MetalServerClient` (`WSMessage`). -/
inductive WSClientFrame
  | message (payload : ServerMessage)
  | typing (metalId : String) (isTyping : Bool)
  | presence (metalId : String) (isOnline : Bool)
  | ack (messageId : String) (status : AckStatus)
deriving DecidableEq

/-- Embeds `MetalServerClient.handleWSMessage`: a `message` frame is passed
to the registered message handler directly — no ProcessedIdSet is consulted
and nothing is recorded; `typing`/`presence` go to their handlers; `ack`
frames are ignored.  Returns the messages surfaced to the message
handler. -/
def handleWSMessage (onMessageSet : Bool) (frame : WSClientFrame) :
    List ServerMessage :=
  match frame with
  | WSClientFrame.message payload => if onMessageSet then [payload] else []
  | _ => []

/-- State used by the C3 counterexample: no id processed yet, the sender
key cached, service initialized, callback registered. -/
def c3State : MsgServiceState :=
  { processedMessageIds := [], contactKeys := [("ZQ7M2", "pk")],
    hasPrivateKey := true, onMessageSet := true }

/-- Poller-path copy of the envelope used by the C3 counterexample. -/
def c3Env : EncryptedEnvelope :=
  { id := "m1", fromMetalId := "ZQ7M2", toMetalId := "AB3K9",
    encryptedContent := "ct", timestamp := 5 }

/-- Decrypt oracle used by the C3 counterexample. -/
def c3Decrypt : String → String → Option MsgPayload :=
  fun _ _ => some { content := "hello", conversationId := "c1", timestamp := 5 }

/-- Live-channel copy of the envelope used by the C3 counterexample. -/
def c3WSMsg : ServerMessage :=
  { id := "m1", fromMetalId := "ZQ7M2", toMetalId := "AB3K9",
    encryptedContent := "ct", timestamp := 5, type := "message" }

/-- C3 counterexample: envelope id m1 is surfaced by the poller, which
records it in the ProcessedIdSet — yet when the same envelope arrives on
the live WebSocket channel, `handleWSMessage` surfaces it again (it never
consults the set), so the application callback fires twice, not once. -/
theorem wsPath_no_dedup :
    (processMessageFile c3Decrypt c3State c3Env).2.length = 1 ∧
    (processMessageFile c3Decrypt c3State c3Env).1.processedMessageIds = ["m1"] ∧
    (handleWSMessage true (WSClientFrame.message c3WSMsg)).length = 1 := by decide

/-- C3 (amended): only the poller path consults the ProcessedIdSet.
`processMessageFile` surfaces an envelope at most once — an id already in
the set is skipped, and any surfaced id is recorded, so reprocessing the
same envelope surfaces nothing — but `handleWSMessage` surfaces every
message frame unconditionally, so an envelope delivered via both paths
fires the application callback once per path (twice), not exactly once. -/
theorem dedup_poller_only (decryptParse : String → String → Option MsgPayload)
    (st : MsgServiceState) (env : EncryptedEnvelope) (payload : MsgPayload)
    (key : String)
    (hfresh : env.id ∉ st.processedMessageIds)
    (hkey : getMap st.contactKeys env.fromMetalId = some key)
    (hpriv : st.hasPrivateKey = true)
    (hcb : st.onMessageSet = true)
    (hdec : decryptParse key env.encryptedContent = some payload) :
    (processMessageFile decryptParse st env).2 =
      [{ id := env.id, conversationId := payload.conversationId,
         senderId := env.fromMetalId, senderMetalId := env.fromMetalId,
         content := payload.content, timestamp := payload.timestamp }] ∧
    (processMessageFile decryptParse
        (processMessageFile decryptParse st env).1 env) =
      ((processMessageFile decryptParse st env).1, []) ∧
    handleWSMessage true (WSClientFrame.message
        { id := env.id, fromMetalId := env.fromMetalId,
          toMetalId := env.toMetalId,
          encryptedContent := env.encryptedContent, timestamp := env.timestamp,
          type := "message" }) =
      [{ id := env.id, fromMetalId := env.fromMetalId,
         toMetalId := env.toMetalId,
         encryptedContent := env.encryptedContent, timestamp := env.timestamp,
         type := "message" }] := by
  have hrun : processMessageFile decryptParse st env =
      ({ st with processedMessageIds := env.id :: st.processedMessageIds },
       [{ id := env.id, conversationId := payload.conversationId,
          senderId := env.fromMetalId, senderMetalId := env.fromMetalId,
          content := payload.content, timestamp := payload.timestamp }]) := by
    unfold processMessageFile
    rw [if_neg hfresh, hkey, hpriv]
    simp only [Bool.true_eq_false, if_false, hdec, hcb, if_true]
  refine ⟨by rw [hrun], ?_, rfl⟩
  rw [hrun]
  unfold processMessageFile
  rw [if_pos (by exact List.mem_cons_self _ _)]

/-- Witness for C3 (amended) at the concrete counterexample inputs. -/
theorem dedup_poller_only_witness :
    (processMessageFile c3Decrypt c3State c3Env).2 =
      [{ id := "m1", conversationId := "c1", senderId := "ZQ7M2",
         senderMetalId := "ZQ7M2", content := "hello", timestamp := 5 }] :=
  (dedup_poller_only c3Decrypt c3State c3Env
      { content := "hello", conversationId := "c1", timestamp := 5 } "pk"
      (by decide) (by decide) (by decide) (by decide) (by decide)).1

/-! ## Identity service (identity service source file)

State fields: `storedSalt` models the `localStorage` salt entry,
`storedIdentity` the encrypted-storage identity record, `storedPassword`
the password whose derived storage key decrypts that record (the KDF and
AES layer of `encryptedStorage` are external; a wrong password makes
`getIdentity` fail, which this models by comparing passwords),
`apiKeyStored` the persisted api-key setting, and `identity`,
`derivedKeys`, `unlocked` the in-memory session of the service. -/

/-- In-memory identity record (`FullIdentity`): public identity plus the
serialized key pair and the salt. -/
structure FullIdentity where
  id : String
  displayName : String
  publicKey : String
  privateKey : String
  salt : String
  createdAt : Nat
deriving DecidableEq

/-- Public identity (`UserIdentity`) returned to callers. -/
structure UserIdentity where
  id : String
  displayName : String
  publicKey : String
  createdAt : Nat
deriving DecidableEq

/-- Error taxonomy of the identity service (the source throws `Error`
objects with distinguishing messages). -/
inductive IdError
  | notAuthenticated
  | noIdentity
  | invalidCredentials
  | duplicateIdentity
deriving DecidableEq

/-- Full state of the identity service and its persistence. -/
structure IdState where
  storedSalt : Option String
  storedIdentity : Option FullIdentity
  storedPassword : Option String
  apiKeyStored : Option String
  identity : Option FullIdentity
  derivedKeys : Option String
  unlocked : Bool
deriving DecidableEq

/-- Projection of a full identity to its public part
(`getPublicIdentity` body). -/
def publicPart (idn : FullIdentity) : UserIdentity :=
  { id := idn.id, displayName := idn.displayName,
    publicKey := idn.publicKey, createdAt := idn.createdAt }

/-- Embeds `IdentityService.hasIdentity`: a persisted salt exists. -/
def hasIdentity (st : IdState) : Bool :=
  st.storedSalt.isSome

/-- Embeds `IdentityService.createIdentity`: derives keys from a fresh
random salt (oracle `freshSalt`), persists the salt, re-initializes the
storage under the new storage key, generates a fresh key pair (oracles
`pub`, `priv`) and a fresh uuid (`freshId`), stores and activates the new
identity, and returns the public identity.  The source performs no check
for an existing identity: whatever was stored before is overwritten. -/
def createIdentity (freshSalt freshId pub priv displayName password : String)
    (now : Nat) (st : IdState) : IdState × Except IdError UserIdentity :=
  let newIdentity : FullIdentity :=
    { id := freshId, displayName := displayName, publicKey := pub,
      privateKey := priv, salt := freshSalt, createdAt := now }
  ({ storedSalt := some freshSalt, storedIdentity := some newIdentity,
     storedPassword := some password, apiKeyStored := st.apiKeyStored,
     identity := some newIdentity, derivedKeys := some password,
     unlocked := true },
   Except.ok (publicPart newIdentity))

/-- Embeds `IdentityService.unlock`: no salt means no identity; otherwise
re-derive keys from the password (recorded in `derivedKeys` before the
storage read, as in the source), then decrypt the stored identity — a
wrong password or a missing record makes `getIdentity` fail and `unlock`
throw; on success the identity is activated. -/
def unlock (password : String) (st : IdState) :
    IdState × Except IdError UserIdentity :=
  match st.storedSalt with
  | none => (st, Except.error IdError.noIdentity)
  | some _ =>
    let st₁ := { st with derivedKeys := some password }
    if st.storedPassword = some password then
      match st.storedIdentity with
      | some idn =>
        ({ st₁ with identity := some idn, unlocked := true },
         Except.ok (publicPart idn))
      | none => (st₁, Except.error IdError.invalidCredentials)
    else (st₁, Except.error IdError.invalidCredentials)

/-- Embeds `IdentityService.lock`: clear the identity and the derived keys
from memory and close the storage. -/
def lock (st : IdState) : IdState :=
  { st with identity := none, derivedKeys := none, unlocked := false }

/-- Embeds `IdentityService.getKeyPair`: fails with the not-authenticated
error when no identity is in memory; otherwise returns the key pair. -/
def getKeyPair (st : IdState) : Except IdError (String × String) :=
  match st.identity with
  | none => Except.error IdError.notAuthenticated
  | some idn => Except.ok (idn.publicKey, idn.privateKey)

/-- Embeds `IdentityService.getFullIdentity` (requires the private key). -/
def getFullIdentity (st : IdState) : Except IdError FullIdentity :=
  match st.identity with
  | none => Except.error IdError.notAuthenticated
  | some idn => Except.ok idn

/-- Embeds `IdentityService.getPublicIdentity`. -/
def getPublicIdentity (st : IdState) : Except IdError UserIdentity :=
  match st.identity with
  | none => Except.error IdError.notAuthenticated
  | some idn => Except.ok (publicPart idn)

/-- Embeds `IdentityService.updateDisplayName`: fails when locked,
otherwise updates the in-memory and stored identity. -/
def updateDisplayName (newName : String) (st : IdState) :
    IdState × Except IdError Unit :=
  match st.identity with
  | none => (st, Except.error IdError.notAuthenticated)
  | some idn =>
    let idn₂ := { idn with displayName := newName }
    ({ st with identity := some idn₂, storedIdentity := some idn₂ },
     Except.ok ())

/-- Embeds `IdentityService.deleteIdentity`: clear all storage, remove the
salt, and drop the in-memory session. -/
def deleteIdentity (st : IdState) : IdState :=
  { storedSalt := none, storedIdentity := none, storedPassword := none,
    apiKeyStored := none, identity := none, derivedKeys := none,
    unlocked := false }

/-- Embeds `IdentityService.setApiKey`: persists the key only while
authenticated. -/
def setApiKey (apiKey : String) (st : IdState) : IdState :=
  if st.unlocked && st.identity.isSome then
    { st with apiKeyStored := some apiKey }
  else st

/-- Embeds `IdentityService.changePassword`: verify the current password by
calling `unlock` (propagating its failure), then derive keys from a fresh
salt, persist the new salt and update the identity record with it (the
source does not re-encrypt the storage, as its own comment admits). -/
def changePassword (currentPassword newPassword freshSalt : String)
    (st : IdState) : IdState × Except IdError Unit :=
  match unlock currentPassword st with
  | (st₁, Except.error e) => (st₁, Except.error e)
  | (st₁, Except.ok _) =>
    match st₁.identity with
    | some idn =>
      let idn₂ := { idn with salt := freshSalt }
      ({ st₁ with
           storedSalt := some freshSalt,
           storedIdentity := some idn₂,
           identity := some idn₂,
           derivedKeys := some newPassword },
       Except.ok ())
    | none => (st₁, Except.ok ())

/-- Stored identity used by the C5 counterexample. -/
def c5OldIdentity : FullIdentity :=
  { id := "id0", displayName := "Old", publicKey := "pub0",
    privateKey := "priv0", salt := "salt0", createdAt := 1 }

/-- State with an identity already present, for the C5 counterexample. -/
def c5State : IdState :=
  { storedSalt := some "salt0", storedIdentity := some c5OldIdentity,
    storedPassword := some "pw0", apiKeyStored := none,
    identity := none, derivedKeys := none, unlocked := false }

/-- C5 counterexample: with an identity already on the device
(`hasIdentity = true`), `createIdentity` does not fail with a
duplicate-identity error — it succeeds and replaces the persisted salt and
identity. -/
theorem createIdentity_no_duplicate_check :
    hasIdentity c5State = true ∧
    (createIdentity "salt1" "id1" "pub1" "priv1" "Alice" "pw1" 100 c5State).2 =
      Except.ok { id := "id1", displayName := "Alice", publicKey := "pub1",
                  createdAt := 100 } ∧
    (createIdentity "salt1" "id1" "pub1" "priv1" "Alice" "pw1" 100
        c5State).1.storedSalt = some "salt1" ∧
    (createIdentity "salt1" "id1" "pub1" "priv1" "Alice" "pw1" 100
        c5State).1.storedIdentity ≠ some c5OldIdentity :=
  ⟨rfl, rfl, rfl, by decide⟩

/-- C5 (amended): `createIdentity` never fails with DuplicateIdentity; from
every state — in particular any state where an identity is already present —
it succeeds, overwrites the persisted salt and identity record with the
fresh ones, and activates the new identity. -/
theorem createIdentity_always_overwrites
    (freshSalt freshId pub priv displayName password : String) (now : Nat)
    (st : IdState) :
    (createIdentity freshSalt freshId pub priv displayName password now st).2 =
      Except.ok { id := freshId, displayName := displayName,
                  publicKey := pub, createdAt := now } ∧
    (createIdentity freshSalt freshId pub priv displayName password now
        st).1.storedSalt = some freshSalt ∧
    (createIdentity freshSalt freshId pub priv displayName password now
        st).1.identity =
      some { id := freshId, displayName := displayName, publicKey := pub,
             privateKey := priv, salt := freshSalt, createdAt := now } := by
  exact ⟨rfl, rfl, rfl⟩

/-- One call on the identity service, with its arguments (the oracles of
`createIdentity` included). -/
inductive IdOp
  | hasIdentityOp
  | createIdentityOp (freshSalt freshId pub priv displayName password : String)
      (now : Nat)
  | unlockOp (password : String)
  | lockOp
  | getKeyPairOp
  | getFullIdentityOp
  | getPublicIdentityOp
  | updateDisplayNameOp (newName : String)
  | deleteIdentityOp
  | setApiKeyOp (apiKey : String)
  | changePasswordOp (currentPassword newPassword freshSalt : String)
deriving DecidableEq

/-- State transition of one identity-service call (read-only calls leave
the state unchanged). -/
def stepIdOp (st : IdState) : IdOp → IdState
  | IdOp.hasIdentityOp => st
  | IdOp.createIdentityOp s i pb pv d pw n =>
    (createIdentity s i pb pv d pw n st).1
  | IdOp.unlockOp pw => (unlock pw st).1
  | IdOp.lockOp => lock st
  | IdOp.getKeyPairOp => st
  | IdOp.getFullIdentityOp => st
  | IdOp.getPublicIdentityOp => st
  | IdOp.updateDisplayNameOp n => (updateDisplayName n st).1
  | IdOp.deleteIdentityOp => deleteIdentity st
  | IdOp.setApiKeyOp k => setApiKey k st
  | IdOp.changePasswordOp cp np fs => (changePassword cp np fs st).1

/-- Runs a sequence of identity-service calls. -/
def runIdOps (st : IdState) : List IdOp → IdState
  | [] => st
  | op :: rest => runIdOps (stepIdOp st op) rest

/-- Whether `unlock` with this password would succeed in this state. -/
def unlockOk (st : IdState) (password : String) : Bool :=
  st.storedSalt.isSome && (st.storedPassword == some password) &&
    st.storedIdentity.isSome

/-- Whether a call is a successful authentication — a `createIdentity`, a
succeeding `unlock`, or a `changePassword` whose internal `unlock`
succeeds. -/
def authSuccess (st : IdState) : IdOp → Bool
  | IdOp.createIdentityOp .. => true
  | IdOp.unlockOp pw => unlockOk st pw
  | IdOp.changePasswordOp cp _ _ => unlockOk st cp
  | _ => false

/-- Whether a call sequence contains no successful authentication along
its trace. -/
def safeIdOps (st : IdState) : List IdOp → Bool
  | [] => true
  | op :: rest => !authSuccess st op && safeIdOps (stepIdOp st op) rest

theorem unlock_fail_keeps_identity (st : IdState) (pw : String)
    (h : unlockOk st pw = false) : (unlock pw st).1.identity = st.identity := by
  unfold unlock
  unfold unlockOk at h
  cases hsalt : st.storedSalt with
  | none => rfl
  | some s =>
    rw [hsalt] at h
    simp only [Option.isSome_some, Bool.true_and] at h
    by_cases hpw : st.storedPassword = some pw
    · rw [hpw] at h
      simp only [beq_self_eq_true, Bool.true_and] at h
      cases hid : st.storedIdentity with
      | none => simp [hpw]
      | some idn => rw [hid] at h; simp at h
    · simp only []
      rw [if_neg hpw]

theorem unlock_fail_is_error (st : IdState) (pw : String)
    (h : unlockOk st pw = false) : ∃ e, (unlock pw st).2 = Except.error e := by
  unfold unlock
  unfold unlockOk at h
  cases hsalt : st.storedSalt with
  | none => exact ⟨IdError.noIdentity, rfl⟩
  | some s =>
    rw [hsalt] at h
    simp only [Option.isSome_some, Bool.true_and] at h
    by_cases hpw : st.storedPassword = some pw
    · rw [hpw] at h
      simp only [beq_self_eq_true, Bool.true_and] at h
      cases hid : st.storedIdentity with
      | none => exact ⟨IdError.invalidCredentials, by simp [hpw]⟩
      | some idn => rw [hid] at h; simp at h
    · exact ⟨IdError.invalidCredentials, by simp [hpw]⟩

theorem locked_step_preserved (st : IdState) (op : IdOp)
    (hlocked : st.identity = none) (hsafe : authSuccess st op = false) :
    (stepIdOp st op).identity = none := by
  cases op with
  | hasIdentityOp => exact hlocked
  | createIdentityOp s i pb pv d pw n => simp [authSuccess] at hsafe
  | unlockOp pw =>
    have := unlock_fail_keeps_identity st pw (by simpa [authSuccess] using hsafe)
    simpa [stepIdOp, hlocked] using this
  | lockOp => rfl
  | getKeyPairOp => exact hlocked
  | getFullIdentityOp => exact hlocked
  | getPublicIdentityOp => exact hlocked
  | updateDisplayNameOp n =>
    simp only [stepIdOp, updateDisplayName, hlocked]
  | deleteIdentityOp => rfl
  | setApiKeyOp k =>
    simp [stepIdOp, setApiKey, hlocked]
  | changePasswordOp cp np fs =>
    have hfail : unlockOk st cp = false := by simpa [authSuccess] using hsafe
    have hid := unlock_fail_keeps_identity st cp hfail
    obtain ⟨e, herr⟩ := unlock_fail_is_error st cp hfail
    simp only [stepIdOp, changePassword]
    cases hu : unlock cp st with
    | mk st₁ r =>
      rw [hu] at hid herr
      cases r with
      | error e₂ =>
        show st₁.identity = none
        exact (show st₁.identity = st.identity from hid).trans hlocked
      | ok u => simp at herr

theorem locked_run_preserved (ops : List IdOp) (st : IdState)
    (hlocked : st.identity = none) (hsafe : safeIdOps st ops = true) :
    (runIdOps st ops).identity = none := by
  induction ops generalizing st with
  | nil => exact hlocked
  | cons op rest ih =>
    unfold safeIdOps at hsafe
    rw [Bool.and_eq_true, Bool.not_eq_true'] at hsafe
    exact ih (stepIdOp st op) (locked_step_preserved st op hlocked hsafe.1)
      hsafe.2

/-- C6: after `lock`, as long as no successful `unlock` (or
`changePassword`) and no `createIdentity` occurs, every later call to
`getKeyPair` — and every other accessor requiring the private key — fails
with the not-authenticated error. -/
theorem getKeyPair_fails_after_lock (st : IdState) (ops : List IdOp)
    (hsafe : safeIdOps (lock st) ops = true) :
    getKeyPair (runIdOps (lock st) ops) =
      Except.error IdError.notAuthenticated ∧
    getFullIdentity (runIdOps (lock st) ops) =
      Except.error IdError.notAuthenticated ∧
    getPublicIdentity (runIdOps (lock st) ops) =
      Except.error IdError.notAuthenticated := by
  have hnone : (runIdOps (lock st) ops).identity = none :=
    locked_run_preserved ops (lock st) rfl hsafe
  unfold getKeyPair getFullIdentity getPublicIdentity
  rw [hnone]
  exact ⟨rfl, rfl, rfl⟩

/-- Witness for C6: lock a live session, then run a failing unlock, an api
key store, a display-name update and a getKeyPair — the key pair stays
unavailable. -/
theorem getKeyPair_fails_after_lock_witness :
    getKeyPair (runIdOps (lock
      { storedSalt := some "salt0", storedIdentity := some c5OldIdentity,
        storedPassword := some "pw0", apiKeyStored := none,
        identity := some c5OldIdentity, derivedKeys := some "pw0",
        unlocked := true })
      [IdOp.getKeyPairOp, IdOp.unlockOp "wrong", IdOp.setApiKeyOp "k",
       IdOp.updateDisplayNameOp "X", IdOp.hasIdentityOp]) =
      Except.error IdError.notAuthenticated :=
  (getKeyPair_fails_after_lock
    { storedSalt := some "salt0", storedIdentity := some c5OldIdentity,
      storedPassword := some "pw0", apiKeyStored := none,
      identity := some c5OldIdentity, derivedKeys := some "pw0",
      unlocked := true }
    [IdOp.getKeyPairOp, IdOp.unlockOp "wrong", IdOp.setApiKeyOp "k",
     IdOp.updateDisplayNameOp "X", IdOp.hasIdentityOp] (by decide)).1

/-! ## MetalServerClient pending-send queue (server api client source file)

`request` wraps `fetch` in a try/catch and turns every network error or
non-OK response into `{success: false}` — the returned promise never
rejects.  The HTTP outcome of one send is therefore the Boolean oracle
`httpOk`. -/

/-- Slice of `MetalServerClient` state used by the offline queue. -/
structure ClientNetState where
  pendingMessages : List ServerMessage
  isOnline : Bool
deriving DecidableEq

/-- Embeds `MetalServerClient.sendMessage`: when the device is offline,
append the message to `pendingMessages` and report success; otherwise POST
it via `request` and return the `success` flag.  Because `request` catches
every error, `sendMessage` never throws. -/
def sendMessage (httpOk : ServerMessage → Bool) (st : ClientNetState)
    (m : ServerMessage) : ClientNetState × Bool :=
  if st.isOnline = false then
    ({ st with pendingMessages := st.pendingMessages ++ [m] }, true)
  else (st, httpOk m)

/-- Embeds `MetalServerClient.flushPendingMessages`: if the queue is empty
do nothing; otherwise copy the queue, clear it, and re-send each entry in
its original order with `sendMessage`, discarding the results — the
`catch` branch that would re-queue a failed message is unreachable since
`sendMessage` never throws. -/
def flushPendingMessages (httpOk : ServerMessage → Bool)
    (st : ClientNetState) : ClientNetState :=
  if st.pendingMessages = [] then st
  else
    st.pendingMessages.foldl (fun s m => (sendMessage httpOk s m).1)
      { st with pendingMessages := [] }

/-- Message used as the C8 failing input. -/
def c8Msg : ServerMessage :=
  { id := "m42", fromMetalId := "AB3K9", toMetalId := "ZQ7M2",
    encryptedContent := "ct", timestamp := 1, type := "message" }

/-- C8 failing input evaluated: one queued message, device online, and the
HTTP send failing (`success: false`).  `sendMessage` reports the failure
only through its discarded Boolean result, so after the flush the pending
list is empty — the failed message was dropped, not re-appended. -/
theorem flush_drops_failed_send :
    sendMessage (fun _ => false)
        { pendingMessages := [], isOnline := true } c8Msg =
      ({ pendingMessages := [], isOnline := true }, false) ∧
    flushPendingMessages (fun _ => false)
        { pendingMessages := [c8Msg], isOnline := true } =
      { pendingMessages := [], isOnline := true } := by decide

end Metal
